import Mathlib

/-!
Shallow embedding of the core of `replicate-rs` (a Rust client library for a
remote model-execution service), covering:

* the error taxonomy and HTTP status-code classification (`src/error.rs`),
* the prediction data model and terminal-status predicate
  (`src/models/prediction.rs`),
* the completion-polling loop `wait_for_completion`
  (`src/api/predictions.rs`),
* the retry/backoff configuration and the multipart bypass
  (`src/http/client.rs`),
* the file-input model and encoding dispatcher
  (`src/models/file.rs`, `src/api/files.rs`).

Machine integers (`u16`, `u32`) are modelled as `Nat` (none of the embedded
code can overflow them on the inputs the theorems quantify over), `Duration`
as a `Nat` count of time units, byte buffers as `List Nat`, and network /
filesystem effects as explicit oracle functions passed in as arguments.
-/

namespace Replicate

/-- JSON values (`serde_json::Value`), carried opaquely by predictions. -/
inductive Json where
  | null : Json
  | bool (b : Bool) : Json
  | num (n : Int) : Json
  | str (s : String) : Json
  | arr (xs : List Json) : Json
  | obj (fields : List (String × Json)) : Json

/-- The error taxonomy of `src/error.rs` (`enum Error`).  Payloads of
external error types (`reqwest`, `serde_json`, `std::io`, `url`) are
modelled as their display strings. -/
inductive Error where
  | Http (msg : String) : Error
  | HttpMiddleware (msg : String) : Error
  | Json (msg : String) : Error
  | Api (status : Nat) (message : String) (detail : Option String) : Error
  | Auth (msg : String) : Error
  | InvalidInput (msg : String) : Error
  | File (msg : String) : Error
  | Url (msg : String) : Error
  | ModelExecution (prediction_id : String) (error_message : Option String)
      (logs : Option String) : Error
  | Timeout (msg : String) : Error
  | Unsupported (msg : String) : Error
deriving DecidableEq

namespace Error

/-- `Error::api_error` (src/error.rs:66). -/
def api_error (status : Nat) (message : String) : Error :=
  .Api status message none

/-- `Error::api_error_with_detail` (src/error.rs:75). -/
def api_error_with_detail (status : Nat) (message : String) (detail : String) :
    Error :=
  .Api status message (some detail)

/-- `Error::auth_error` (src/error.rs:88). -/
def auth_error (message : String) : Error :=
  .Auth message

/-- `Error::invalid_input` (src/error.rs:93). -/
def invalid_input (message : String) : Error :=
  .InvalidInput message

/-- `Error::model_execution` (src/error.rs:98). -/
def model_execution (prediction_id : String) (error_message : Option String)
    (logs : Option String) : Error :=
  .ModelExecution prediction_id error_message logs

/-- Whether an error is the `Auth` variant. -/
def isAuth : Error → Bool
  | .Auth _ => true
  | _ => false

/-- The status carried by an `Api` error, if the error is that variant. -/
def apiStatus : Error → Option Nat
  | .Api status _ _ => some status
  | _ => none

end Error

/-- `StatusCodeExt::to_replicate_error` (src/error.rs:127): maps a non-success
HTTP status code together with the raw response body to an `Error`. -/
def to_replicate_error (status : Nat) (body : String) : Error :=
  if status = 401 then Error.auth_error "Invalid API token"
  else if status = 402 then Error.auth_error "Insufficient credits"
  else if status = 403 then Error.auth_error "Forbidden"
  else if status = 404 then Error.api_error 404 "Resource not found"
  else if status = 422 then Error.api_error_with_detail 422 "Validation error" body
  else if status = 429 then Error.api_error 429 "Rate limit exceeded"
  else if 500 ≤ status ∧ status ≤ 599 then Error.api_error status "Server error"
  else Error.api_error status body

/-- `PredictionStatus` (src/models/prediction.rs:11). -/
inductive PredictionStatus where
  | Starting : PredictionStatus
  | Processing : PredictionStatus
  | Succeeded : PredictionStatus
  | Failed : PredictionStatus
  | Canceled : PredictionStatus
deriving DecidableEq, BEq

namespace PredictionStatus

/-- `PredictionStatus::is_terminal` (src/models/prediction.rs:26). -/
def is_terminal : PredictionStatus → Bool
  | .Succeeded => true
  | .Failed => true
  | .Canceled => true
  | _ => false

/-- `PredictionStatus::is_running` (src/models/prediction.rs:31). -/
def is_running : PredictionStatus → Bool
  | .Starting => true
  | .Processing => true
  | _ => false

end PredictionStatus

/-- `PredictionUrls` (src/models/prediction.rs:38). -/
structure PredictionUrls where
  get : String
  cancel : String
  stream : Option String

/-- `Prediction` (src/models/prediction.rs:49): a point-in-time snapshot of a
remote job. -/
structure Prediction where
  id : String
  model : String
  version : String
  status : PredictionStatus
  input : Option (List (String × Json))
  output : Option Json
  logs : Option String
  error : Option String
  metrics : Option (List (String × Json))
  created_at : Option String
  started_at : Option String
  completed_at : Option String
  urls : Option PredictionUrls

namespace Prediction

/-- `Prediction::is_complete` (src/models/prediction.rs:92). -/
def is_complete (p : Prediction) : Bool :=
  p.status.is_terminal

/-- `Prediction::is_successful` (src/models/prediction.rs:97). -/
def is_successful (p : Prediction) : Bool :=
  p.status == PredictionStatus.Succeeded

/-- `Prediction::is_failed` (src/models/prediction.rs:102). -/
def is_failed (p : Prediction) : Bool :=
  p.status == PredictionStatus.Failed

/-- `Prediction::is_canceled` (src/models/prediction.rs:107). -/
def is_canceled (p : Prediction) : Bool :=
  p.status == PredictionStatus.Canceled

end Prediction

/-!
## The completion-polling loop

`PredictionsApi::wait_for_completion` (src/api/predictions.rs:80) runs, inside
an optional `tokio::time::timeout`, the loop

```
loop {
    interval.tick().await;
    let prediction = self.get(id).await?;
    if prediction.status.is_terminal() {
        if prediction.is_failed() { return Err(Error::model_execution(..)); }
        return Ok(prediction);
    }
}
```

The network fetch `self.get(id)` is modelled by an oracle
`fetch : Nat → Except Error Prediction` giving the outcome of the k-th status
fetch (0-indexed).  Because the Rust loop can diverge, the Lean model takes a
fuel bound and returns `none` when the loop is still polling after `fuel`
fetches.  The result is paired with the number of fetches actually performed.
-/

/-- The polling loop of `wait_for_completion`, started at fetch index `k` with
`fuel` fetches allowed.  Returns `none` while still polling, or
`some (outcome, fetchCount)` once the loop returns. -/
def waitRun (id : String) (fetch : Nat → Except Error Prediction) :
    Nat → Nat → Option (Except Error Prediction × Nat)
  | _, 0 => none
  | k, fuel + 1 =>
    match fetch k with
    | .error e => some (.error e, 1)
    | .ok p =>
      if p.status.is_terminal then
        if p.is_failed then
          some (.error (Error.model_execution id p.error p.logs), 1)
        else
          some (.ok p, 1)
      else
        match waitRun id fetch (k + 1) fuel with
        | none => none
        | some (r, n) => some (r, n + 1)

/-- Models the `{:?}` Debug rendering of the `Duration` interpolated into the
timeout message at src/api/predictions.rs:109; the duration is a count of
time units. -/
def durationRepr (d : Nat) : String :=
  toString d ++ "ms"

/-- `PredictionsApi::wait_for_completion` (src/api/predictions.rs:80).
With `max_duration = some d`, the `tokio::time::timeout` wrapper aborts the
loop once the deadline elapses; `allowed` is the number of poll iterations
that real time lets complete before the deadline (determined by the poll
interval and wall-clock time, which the embedding abstracts), and the
`Timeout` error of src/api/predictions.rs:109 is produced when no outcome was
reached within them.  With `max_duration = none` the loop runs unbounded;
`fuel` bounds the approximant and `none` means "still polling". -/
def wait_for_completion (id : String) (fetch : Nat → Except Error Prediction)
    (max_duration : Option Nat) (allowed : Nat) (fuel : Nat) :
    Option (Except Error Prediction) :=
  match max_duration with
  | some d =>
    match waitRun id fetch 0 allowed with
    | some (r, _) => some r
    | none =>
      some (.error (.Timeout
        ("Prediction " ++ id ++ " did not complete within " ++ durationRepr d)))
  | none =>
    match waitRun id fetch 0 fuel with
    | some (r, _) => some r
    | none => none

/-!
## HTTP client configuration (src/http/client.rs)

Durations are counts of time units (`Nat`).  The built middleware client is
deterministic in the `HttpConfig` it is built from
(`build_client_with_config`, src/http/client.rs:105), so the `client` field
is modelled as the `HttpConfig` the current middleware stack was built with.
-/

/-- `RetryConfig` (src/http/client.rs:19). -/
structure RetryConfig where
  max_retries : Nat
  min_delay : Nat
  max_delay : Nat
  base_multiplier : Nat
deriving DecidableEq

/-- `TimeoutConfig` (src/http/client.rs:39). -/
structure TimeoutConfig where
  connect_timeout : Option Nat
  request_timeout : Option Nat
deriving DecidableEq

/-- `HttpConfig` (src/http/client.rs:55). -/
structure HttpConfig where
  retry : RetryConfig
  timeout : TimeoutConfig
deriving DecidableEq

/-- `HttpClient` (src/http/client.rs:62).  The `client` field stands for the
middleware-wrapped reqwest client, represented by the configuration it was
built from (it is rebuilt from an `HttpConfig` and nothing else). -/
structure HttpClient where
  client : HttpConfig
  base_url : String
  api_token : String
  http_config : HttpConfig
deriving DecidableEq

/-- `HttpClient::configure_retries_advanced` (src/http/client.rs:318): builds
a fresh `RetryConfig` from the arguments, keeps the current timeout
configuration, rebuilds the middleware client from the combined
configuration, and installs both. -/
def HttpClient.configure_retries_advanced (c : HttpClient) (max_retries : Nat)
    (min_delay : Nat) (max_delay : Nat) (base_multiplier : Nat) : HttpClient :=
  let new_retry_config : RetryConfig :=
    ⟨max_retries, min_delay, max_delay, base_multiplier⟩
  let new_http_config : HttpConfig :=
    ⟨new_retry_config, c.http_config.timeout⟩
  { c with client := new_http_config, http_config := new_http_config }

/-- `HttpClient::configure_timeouts` (src/http/client.rs:355): builds a fresh
`TimeoutConfig` from the arguments, keeps the current retry configuration,
rebuilds the middleware client from the combined configuration, and installs
both. -/
def HttpClient.configure_timeouts (c : HttpClient)
    (connect_timeout : Option Nat) (request_timeout : Option Nat) : HttpClient :=
  let new_timeout_config : TimeoutConfig :=
    ⟨connect_timeout, request_timeout⟩
  let new_http_config : HttpConfig :=
    ⟨c.http_config.retry, new_timeout_config⟩
  { c with client := new_http_config, http_config := new_http_config }

/-!
## Backoff policy

The delay computation is performed by the external `retry-policies` crate
(`ExponentialBackoff` with `retry_bounds(min_delay, max_delay)`,
`jitter(Jitter::Bounded)` and `base(base_multiplier)`,
src/http/client.rs:107); the crate's code is not part of this repository.
-/

/-- Modelled from the spec: the un-jittered delay of the backoff policy for a
given attempt, `clamp(min_delay * multiplier^attempt, min_delay, max_delay)`
(spec §4.1); the crate implementing it is external to the repository. -/
def computedDelay (cfg : RetryConfig) (attempt : Nat) : Nat :=
  max cfg.min_delay (min (cfg.min_delay * cfg.base_multiplier ^ attempt) cfg.max_delay)

/-- Modelled from the spec: the delay after jitter, a uniformly-random value
within `[0, computed]` (spec §4.1, "bounded jitter, never exceeding the
clamped ceiling"); `r` is the random sample, reduced into the range. -/
def nextDelay (cfg : RetryConfig) (attempt : Nat) (r : Nat) : Nat :=
  r % (computedDelay cfg attempt + 1)

/-!
## Retry-decorated vs. plain request execution

A single HTTP attempt either yields a response with a status code and body,
or fails at the transport level (connection failure / request timeout).  The
outcomes of successive attempts are given by an oracle
`attempts : Nat → AttemptResult`.
-/

/-- The outcome of one HTTP attempt. -/
inductive AttemptResult where
  | response (status : Nat) (body : String) : AttemptResult
  | netFailure (msg : String) : AttemptResult
deriving DecidableEq

/-- Modelled from the spec: the transient-failure classification applied by
the retry middleware (`RetryTransientMiddleware`, an external crate layered
on at src/http/client.rs:129): network/connection failures and request
timeouts, HTTP 429, and HTTP 500-599 are retryable (spec §4.1). -/
def AttemptResult.retryable : AttemptResult → Bool
  | .response status _ => if status = 429 then true
      else if 500 ≤ status ∧ status ≤ 599 then true
      else false
  | .netFailure _ => true

/-- The retry loop of the middleware-wrapped client: attempt, and while the
outcome is retryable and retry budget remains, attempt again; the last
outcome is surfaced unchanged.  Returns the final outcome and the number of
attempts performed. -/
def retryLoop (attempts : Nat → AttemptResult) :
    Nat → Nat → AttemptResult × Nat
  | k, 0 => (attempts k, 1)
  | k, budget + 1 =>
    let r := attempts k
    if r.retryable then
      let rest := retryLoop attempts (k + 1) budget
      (rest.1, rest.2 + 1)
    else
      (r, 1)

/-- A send through `self.client`, the middleware-wrapped client used by
`execute_request` / `execute_request_with_json`
(src/http/client.rs:179, 199): the retry policy built from the client's
retry configuration governs the attempts. -/
def retryingSend (cfg : HttpConfig) (attempts : Nat → AttemptResult) :
    AttemptResult × Nat :=
  retryLoop attempts 0 cfg.retry.max_retries

/-- `HttpClient::execute_multipart_request` (src/http/client.rs:396): the
multipart form is sent through a fresh plain `reqwest::Client::new()`
(src/http/client.rs:418), not through the retry-decorated `self.client`, so
exactly one attempt is made whatever the retry configuration says. -/
def execute_multipart_request (cfg : HttpConfig)
    (attempts : Nat → AttemptResult) : AttemptResult × Nat :=
  let _ := cfg
  (attempts 0, 1)

/-!
## File inputs and the encoding dispatcher

`PathBuf` is modelled as the path string, `Bytes` as `List Nat`.  Filesystem
reads (`tokio::fs::read`) and MIME guessing (`mime_guess`), both effects or
external crates, are supplied as an environment of oracles; the multipart
upload POST performed by `FilesApi` is likewise an oracle per input shape.
-/

/-- `FileInput` (src/models/file.rs:9). -/
inductive FileInput where
  | Url (url : String) : FileInput
  | Path (path : String) : FileInput
  | Bytes (data : List Nat) (filename : Option String)
      (content_type : Option String) : FileInput
deriving DecidableEq

/-- Rust's `str::starts_with` with a string pattern: a prefix test on the
character sequence. -/
def strStartsWith (s pat : String) : Bool :=
  pat.data.isPrefixOf s.data

/-- `impl From<String> for FileInput` (src/models/file.rs:88). -/
def fileInputFromString (s : String) : FileInput :=
  if strStartsWith s "http://" || strStartsWith s "https://" then
    FileInput.Url s
  else
    FileInput.Path s

/-- `FileEncodingStrategy` (src/models/file.rs:187). -/
inductive FileEncodingStrategy where
  | Base64DataUrl : FileEncodingStrategy
  | Multipart : FileEncodingStrategy
deriving DecidableEq

/-- `impl Default for FileEncodingStrategy` (src/models/file.rs:194). -/
def FileEncodingStrategy.default : FileEncodingStrategy :=
  .Multipart

/-- The alphabet of standard base64 (RFC 4648), as used by
`base64::engine::general_purpose::STANDARD`. -/
def base64Alphabet : List Char :=
  "ABCDEFGHIJKLMNOPQRSTUVWXYZabcdefghijklmnopqrstuvwxyz0123456789+/".data

/-- The base64 digit for a 6-bit value. -/
def base64Digit (n : Nat) : Char :=
  base64Alphabet.getD n 'A'

/-- Standard base64 encoding with `=` padding
(`general_purpose::STANDARD.encode`, an external crate): three input bytes
become four digits; a two-byte tail becomes three digits and one pad; a
one-byte tail becomes two digits and two pads. -/
def base64Chunks : List Nat → List Char
  | b1 :: b2 :: b3 :: rest =>
    let n := (b1 % 256) * 65536 + (b2 % 256) * 256 + (b3 % 256)
    base64Digit (n / 262144) :: base64Digit (n / 4096 % 64) ::
      base64Digit (n / 64 % 64) :: base64Digit (n % 64) :: base64Chunks rest
  | [b1, b2] =>
    let n := (b1 % 256) * 65536 + (b2 % 256) * 256
    [base64Digit (n / 262144), base64Digit (n / 4096 % 64),
      base64Digit (n / 64 % 64), '=']
  | [b1] =>
    let n := (b1 % 256) * 65536
    [base64Digit (n / 262144), base64Digit (n / 4096 % 64), '=', '=']
  | [] => []

/-- Standard base64 encoding of a byte sequence, as a string. -/
def base64Encode (bs : List Nat) : String :=
  String.mk (base64Chunks bs)

/-- Effect oracles for the file-encoding paths: reading a local file
(`tokio::fs::read`, src/api/files.rs:152) and guessing a MIME type from a
path with octet-stream fallback (`mime_guess::from_path(..)
.first_or_octet_stream()`, src/api/files.rs:153). -/
structure FileEnv where
  readFile : String → Except Error (List Nat)
  mimeGuess : String → String

/-- `File` (src/api/files.rs:13): a stored-file record returned by the
files endpoint.  `urls` maps names such as "get" to retrieval URLs. -/
structure File where
  id : String
  name : String
  content_type : String
  size : Int
  etag : String
  checksums : List (String × String)
  metadata : List (String × Json)
  created_at : String
  expires_at : Option String
  urls : List (String × String)

/-- Lookup in the `urls` map of a `File` (`file.urls.get("get")`,
src/api/files.rs:130). -/
def File.urlFor (f : File) (key : String) : Option String :=
  (f.urls.find? (fun kv => kv.1 == key)).map (·.2)

/-- `FilesApi` (src/api/files.rs:38), modelled by oracles for its two upload
routes: `create_from_path` (read the file, multipart POST to `/v1/files`,
src/api/files.rs:63) and `create_from_bytes` (multipart POST,
src/api/files.rs:49).  Each oracle returns the stored-file record or the
error of the failed upload. -/
structure FilesApi where
  uploadPath : String → Except Error File
  uploadBytes : List Nat → Option String → Option String → Except Error File

/-- `FilesApi::create_from_file_input` (src/api/files.rs:73): dispatch on the
input variant; uploading from a URL is refused. -/
def FilesApi.create_from_file_input (api : FilesApi) (file_input : FileInput) :
    Except Error File :=
  match file_input with
  | .Path path => api.uploadPath path
  | .Bytes data filename content_type => api.uploadBytes data filename content_type
  | .Url _ => .error (.InvalidInput
      "Cannot upload from URL - file must be local or bytes")

/-- `encode_file_as_data_url` (src/api/files.rs:143): produce a
`data:<mime>;base64,<payload>` string, or refuse a URL input. -/
def encode_file_as_data_url (env : FileEnv) (file_input : FileInput) :
    Except Error String :=
  match file_input with
  | .Url _ => .error (.InvalidInput
      "Cannot encode URL as data URL without downloading")
  | .Path path => do
    let content ← env.readFile path
    let content_type := env.mimeGuess path
    .ok ("data:" ++ content_type ++ ";base64," ++ base64Encode content)
  | .Bytes data _ content_type =>
    let ct := content_type.getD "application/octet-stream"
    .ok ("data:" ++ ct ++ ";base64," ++ base64Encode data)

/-- `process_file_input` (src/api/files.rs:118): dispatch on the encoding
strategy; the multipart route uploads through the files API (when one is
supplied) and returns the stored file's "get" URL. -/
def process_file_input (env : FileEnv) (file_input : FileInput)
    (encoding_strategy : FileEncodingStrategy) (files_api : Option FilesApi) :
    Except Error String :=
  match encoding_strategy with
  | .Base64DataUrl => encode_file_as_data_url env file_input
  | .Multipart =>
    match files_api with
    | some api => do
      let file ← api.create_from_file_input file_input
      match file.urlFor "get" with
      | some url => .ok url
      | none => .error (.InvalidInput "File missing URL")
    | none => .error (.InvalidInput "Files API required for multipart upload")

/-!
## Lemmas about the polling loop
-/

/-- One step of the loop when the fetch fails: the error propagates via `?`
after a single fetch. -/
theorem waitRun_stop_err (id : String) (fetch : Nat → Except Error Prediction)
    (k fuel : Nat) (e : Error) (h : fetch k = .error e) :
    waitRun id fetch k (fuel + 1) = some (.error e, 1) := by
  simp [waitRun, h]

/-- One step of the loop on a `Failed` snapshot: a `ModelExecution` error
carrying the id, the snapshot's error message and its logs, after a single
fetch. -/
theorem waitRun_stop_failed (id : String)
    (fetch : Nat → Except Error Prediction) (k fuel : Nat) (p : Prediction)
    (h : fetch k = .ok p) (hs : p.status = .Failed) :
    waitRun id fetch k (fuel + 1)
      = some (.error (Error.model_execution id p.error p.logs), 1) := by
  have ht : p.status.is_terminal = true := by rw [hs]; rfl
  have hfl : p.is_failed = true := by
    unfold Prediction.is_failed; rw [hs]; rfl
  simp [waitRun, h, ht, hfl]

/-- One step of the loop on a terminal, non-`Failed` snapshot: the snapshot
is returned as-is after a single fetch. -/
theorem waitRun_stop_ok (id : String) (fetch : Nat → Except Error Prediction)
    (k fuel : Nat) (p : Prediction) (h : fetch k = .ok p)
    (ht : p.status.is_terminal = true) (hf : p.is_failed = false) :
    waitRun id fetch k (fuel + 1) = some (.ok p, 1) := by
  simp [waitRun, h, ht, hf]

/-- One step of the loop on a non-terminal snapshot: the loop continues at
the next fetch index, with the fetch count raised by one. -/
theorem waitRun_nonterm (id : String) (fetch : Nat → Except Error Prediction)
    (k fuel : Nat) (p : Prediction) (h : fetch k = .ok p)
    (ht : p.status.is_terminal = false) :
    waitRun id fetch k (fuel + 1)
      = (waitRun id fetch (k + 1) fuel).map (fun rc => (rc.1, rc.2 + 1)) := by
  cases hrec : waitRun id fetch (k + 1) fuel with
  | none => simp [waitRun, h, ht, hrec]
  | some rc => simp [waitRun, h, ht, hrec]

/-- Skipping a block of non-terminal fetches: when the `n` fetches starting
at index `k` all yield non-terminal snapshots, the loop behaves like the loop
started at `k + n`, with `n` more fetches counted. -/
theorem waitRun_shift (id : String) (fetch : Nat → Except Error Prediction)
    (n : Nat) : ∀ (k fuel : Nat),
    (∀ j, j < n → ∃ q, fetch (k + j) = .ok q ∧ q.status.is_terminal = false) →
    waitRun id fetch k (n + fuel)
      = (waitRun id fetch (k + n) fuel).map (fun rc => (rc.1, rc.2 + n)) := by
  induction n with
  | zero =>
    intro k fuel _
    cases waitRun id fetch k fuel <;> simp_all
  | succ m ih =>
    intro k fuel h
    obtain ⟨q, hq, ht⟩ := h 0 (Nat.succ_pos m)
    have h0 : fetch k = .ok q := by simpa using hq
    have harith : m + 1 + fuel = (m + fuel) + 1 := by omega
    rw [harith, waitRun_nonterm id fetch k (m + fuel) q h0 ht]
    have hrest : ∀ j, j < m →
        ∃ q, fetch (k + 1 + j) = .ok q ∧ q.status.is_terminal = false := by
      intro j hj
      have := h (j + 1) (by omega)
      have harith2 : k + (j + 1) = k + 1 + j := by omega
      rwa [harith2] at this
    rw [ih (k + 1) fuel hrest]
    have harith3 : k + 1 + m = k + (m + 1) := by omega
    rw [harith3]
    cases waitRun id fetch (k + (m + 1)) fuel with
    | none => simp
    | some rc => simp; omega

/-- The loop itself never fabricates a `Timeout` outcome: when no fetch
returns a `Timeout` error, no run of the loop does either. -/
theorem waitRun_no_timeout (id : String) (fetch : Nat → Except Error Prediction)
    (hfetch : ∀ k m, fetch k ≠ .error (.Timeout m)) :
    ∀ fuel k r c m, waitRun id fetch k fuel = some (r, c) →
      r ≠ .error (.Timeout m) := by
  intro fuel
  induction fuel with
  | zero => intro k r c m h; simp [waitRun] at h
  | succ f ih =>
    intro k r c m h
    cases hfk : fetch k with
    | error e =>
      rw [waitRun_stop_err id fetch k f e hfk] at h
      simp only [Option.some.injEq, Prod.mk.injEq] at h
      obtain ⟨rfl, rfl⟩ := h
      intro hcon
      injection hcon with he
      exact hfetch k m (by rw [hfk, he])
    | ok p =>
      cases hstat : p.status with
      | Failed =>
        rw [waitRun_stop_failed id fetch k f p hfk hstat] at h
        simp only [Option.some.injEq, Prod.mk.injEq] at h
        obtain ⟨rfl, rfl⟩ := h
        simp [Error.model_execution]
      | Succeeded =>
        have ht : p.status.is_terminal = true := by rw [hstat]; rfl
        have hfl : p.is_failed = false := by
          unfold Prediction.is_failed; rw [hstat]; rfl
        rw [waitRun_stop_ok id fetch k f p hfk ht hfl] at h
        simp only [Option.some.injEq, Prod.mk.injEq] at h
        obtain ⟨rfl, rfl⟩ := h
        simp
      | Canceled =>
        have ht : p.status.is_terminal = true := by rw [hstat]; rfl
        have hfl : p.is_failed = false := by
          unfold Prediction.is_failed; rw [hstat]; rfl
        rw [waitRun_stop_ok id fetch k f p hfk ht hfl] at h
        simp only [Option.some.injEq, Prod.mk.injEq] at h
        obtain ⟨rfl, rfl⟩ := h
        simp
      | Starting =>
        have ht : p.status.is_terminal = false := by rw [hstat]; rfl
        rw [waitRun_nonterm id fetch k f p hfk ht] at h
        cases hrec : waitRun id fetch (k + 1) f with
        | none => rw [hrec] at h; simp at h
        | some rc =>
          rw [hrec] at h
          simp only [Option.map_some', Option.some.injEq, Prod.mk.injEq] at h
          obtain ⟨rfl, rfl⟩ := h
          exact ih (k + 1) rc.1 rc.2 m hrec
      | Processing =>
        have ht : p.status.is_terminal = false := by rw [hstat]; rfl
        rw [waitRun_nonterm id fetch k f p hfk ht] at h
        cases hrec : waitRun id fetch (k + 1) f with
        | none => rw [hrec] at h; simp at h
        | some rc =>
          rw [hrec] at h
          simp only [Option.map_some', Option.some.injEq, Prod.mk.injEq] at h
          obtain ⟨rfl, rfl⟩ := h
          exact ih (k + 1) rc.1 rc.2 m hrec

/-- The attempt count of the middleware retry loop when every attempt fails
with a retryable outcome: the whole budget is used, one initial attempt plus
`budget` retries. -/
theorem retryLoop_count_all_retryable (attempts : Nat → AttemptResult)
    (hall : ∀ k, (attempts k).retryable = true) :
    ∀ budget k, (retryLoop attempts k budget).2 = budget + 1 := by
  intro budget
  induction budget with
  | zero => intro k; rfl
  | succ b ih =>
    intro k
    simp only [retryLoop, hall k, if_true]
    rw [ih (k + 1)]

/-- The unbounded-polling branch of `wait_for_completion` returns exactly the
loop's outcome. -/
theorem wait_for_completion_none_eq (id : String)
    (fetch : Nat → Except Error Prediction) (allowed fuel : Nat) :
    wait_for_completion id fetch none allowed fuel
      = (waitRun id fetch 0 fuel).map (fun rc => rc.1) := by
  unfold wait_for_completion
  cases hw : waitRun id fetch 0 fuel <;> simp [hw]

/-!
## Concrete snapshots and status sources used by the witnesses
-/

/-- A job snapshot with the given id, status, error message and logs; the
remaining fields are fixed placeholders. -/
def mkPrediction (id : String) (status : PredictionStatus)
    (error logs : Option String) : Prediction :=
  { id := id, model := "owner/model", version := "v1", status := status,
    input := none, output := none, logs := logs, error := error,
    metrics := none, created_at := none, started_at := none,
    completed_at := none, urls := none }

/-- A status source whose first fetch is `Processing` and whose later fetches
are `Failed` with error message "boom" and logs "log". -/
def failAfterOneFetch : Nat → Except Error Prediction := fun k =>
  if k = 0 then .ok (mkPrediction "j1" .Processing none none)
  else .ok (mkPrediction "j1" .Failed (some "boom") (some "log"))

/-- A status source returning `p1`, then `p2`, then `p3` forever after. -/
def threeStepFetch (p1 p2 p3 : Prediction) : Nat → Except Error Prediction :=
  fun k => if k = 0 then .ok p1 else if k = 1 then .ok p2 else .ok p3

/-- A status source that is always `Processing` (never terminal). -/
def neverDoneFetch : Nat → Except Error Prediction := fun _ =>
  .ok (mkPrediction "j3" .Processing none none)

/-!
## The claims
-/

/-- Claim C1: for every job id, if the status fetch of `wait_for_completion`
returns a snapshot whose status is `Failed` (after any number of
non-terminal snapshots), the call returns a `ModelExecution` error carrying
that job id, the snapshot's error message and its logs, and performs no
further status fetches afterward: the fetch count is `n + 1` for every fuel
bound, so a `Failed` status is never retried or re-polled. -/
theorem wait_failed_reports_model_execution (id : String)
    (fetch : Nat → Except Error Prediction) (n fuel allowed : Nat)
    (p : Prediction)
    (hpre : ∀ j, j < n → ∃ q, fetch j = .ok q ∧ q.status.is_terminal = false)
    (hn : fetch n = .ok p) (hp : p.status = .Failed) (hfuel : n < fuel) :
    waitRun id fetch 0 fuel
      = some (.error (Error.model_execution id p.error p.logs), n + 1)
    ∧ wait_for_completion id fetch none allowed fuel
      = some (.error (Error.model_execution id p.error p.logs)) := by
  have hpre0 : ∀ j, j < n →
      ∃ q, fetch (0 + j) = .ok q ∧ q.status.is_terminal = false := by
    simpa using hpre
  have h1 : waitRun id fetch 0 fuel
      = some (.error (Error.model_execution id p.error p.logs), n + 1) := by
    rw [show fuel = n + (fuel - n - 1 + 1) by omega,
      waitRun_shift id fetch n 0 (fuel - n - 1 + 1) hpre0, Nat.zero_add,
      waitRun_stop_failed id fetch n (fuel - n - 1) p hn hp]
    simp only [Option.map_some', Option.some.injEq, Prod.mk.injEq, true_and]
    omega
  refine ⟨h1, ?_⟩
  rw [wait_for_completion_none_eq, h1]
  rfl

/-- Witness for C1: a source that is `Processing` once and then `Failed` with
error "boom" and logs "log" makes the loop stop after the second fetch with
the corresponding `ModelExecution` error, even with fuel for five fetches. -/
theorem wait_failed_reports_model_execution_witness :
    waitRun "j1" failAfterOneFetch 0 5
      = some (.error (Error.model_execution "j1" (some "boom") (some "log")), 2) := by
  have h := wait_failed_reports_model_execution "j1" failAfterOneFetch 1 5 0
    (mkPrediction "j1" .Failed (some "boom") (some "log"))
    (by
      intro j hj
      have hj0 : j = 0 := by omega
      subst hj0
      exact ⟨mkPrediction "j1" .Processing none none, rfl, rfl⟩)
    rfl rfl (by omega)
  exact h.1

/-- Claim C2: against a status source that returns `Processing` on the first
two fetches and a `Succeeded` (or `Canceled`) snapshot on the third,
`wait_for_completion` without a deadline performs exactly 3 fetches and
returns the third snapshot unchanged as the success value, not as an
error. -/
theorem wait_three_fetches_returns_snapshot (id : String)
    (p1 p2 p3 : Prediction) (fuel allowed : Nat)
    (h1 : p1.status = .Processing) (h2 : p2.status = .Processing)
    (h3 : p3.status = .Succeeded ∨ p3.status = .Canceled) (hf : 3 ≤ fuel) :
    waitRun id (threeStepFetch p1 p2 p3) 0 fuel = some (.ok p3, 3)
    ∧ wait_for_completion id (threeStepFetch p1 p2 p3) none allowed fuel
      = some (.ok p3) := by
  have hpre0 : ∀ j, j < 2 → ∃ q,
      threeStepFetch p1 p2 p3 (0 + j) = .ok q ∧ q.status.is_terminal = false := by
    intro j hj
    have : j = 0 ∨ j = 1 := by omega
    rcases this with hj0 | hj1
    · subst hj0
      exact ⟨p1, rfl, by rw [h1]; rfl⟩
    · subst hj1
      exact ⟨p2, rfl, by rw [h2]; rfl⟩
  have ht : p3.status.is_terminal = true := by
    rcases h3 with hs | hs <;> rw [hs] <;> rfl
  have hfl : p3.is_failed = false := by
    unfold Prediction.is_failed
    rcases h3 with hs | hs <;> rw [hs] <;> rfl
  have hn : threeStepFetch p1 p2 p3 2 = .ok p3 := rfl
  have hrun : waitRun id (threeStepFetch p1 p2 p3) 0 fuel = some (.ok p3, 3) := by
    rw [show fuel = 2 + (fuel - 3 + 1) by omega,
      waitRun_shift id (threeStepFetch p1 p2 p3) 2 0 (fuel - 3 + 1) hpre0,
      Nat.zero_add,
      waitRun_stop_ok id (threeStepFetch p1 p2 p3) 2 (fuel - 3) p3 hn ht hfl]
    rfl
  refine ⟨hrun, ?_⟩
  rw [wait_for_completion_none_eq, hrun]
  rfl

/-- Witness for C2: a concrete Processing/Processing/Succeeded source makes
exactly 3 fetches and yields the third snapshot, with fuel for ten. -/
theorem wait_three_fetches_returns_snapshot_witness :
    waitRun "j2"
      (threeStepFetch (mkPrediction "j2" .Processing none none)
        (mkPrediction "j2" .Processing none none)
        (mkPrediction "j2" .Succeeded none (some "out"))) 0 10
      = some (.ok (mkPrediction "j2" .Succeeded none (some "out")), 3) :=
  (wait_three_fetches_returns_snapshot "j2"
    (mkPrediction "j2" .Processing none none)
    (mkPrediction "j2" .Processing none none)
    (mkPrediction "j2" .Succeeded none (some "out")) 10 0
    rfl rfl (Or.inl rfl) (by omega)).1

/-- Claim C3: with a deadline, if no status fetch returns a terminal state
in the iterations that complete before the deadline elapses,
`wait_for_completion` returns a `Timeout` error naming the job id and the
configured duration; without a deadline the loop never produces a `Timeout`
by itself (any `Timeout` it returns was returned by a status fetch). -/
theorem wait_deadline_timeout (id : String)
    (fetch : Nat → Except Error Prediction) (d allowed fuel : Nat)
    (hpre : ∀ k, k < allowed →
      ∃ q, fetch k = .ok q ∧ q.status.is_terminal = false)
    (hfetch : ∀ k m, fetch k ≠ .error (.Timeout m)) :
    wait_for_completion id fetch (some d) allowed fuel
      = some (.error (.Timeout
          ("Prediction " ++ id ++ " did not complete within " ++ durationRepr d)))
    ∧ ∀ m, wait_for_completion id fetch none allowed fuel
        ≠ some (.error (.Timeout m)) := by
  constructor
  · have hpre0 : ∀ j, j < allowed →
        ∃ q, fetch (0 + j) = .ok q ∧ q.status.is_terminal = false := by
      simpa using hpre
    have hnone : waitRun id fetch 0 allowed = none := by
      have hsh := waitRun_shift id fetch allowed 0 0 hpre0
      rw [Nat.add_zero] at hsh
      rw [hsh]
      rfl
    unfold wait_for_completion
    rw [hnone]
  · intro m hcon
    rw [wait_for_completion_none_eq] at hcon
    cases hrun : waitRun id fetch 0 fuel with
    | none => rw [hrun] at hcon; simp at hcon
    | some rc =>
      rw [hrun] at hcon
      simp only [Option.map_some', Option.some.injEq] at hcon
      exact waitRun_no_timeout id fetch hfetch fuel 0 rc.1 rc.2 m hrun hcon

/-- Witness for C3: a never-terminal source with a deadline admitting three
fetches yields the Timeout error naming the id and the duration; without a
deadline, the approximant never yields a Timeout. -/
theorem wait_deadline_timeout_witness :
    wait_for_completion "j3" neverDoneFetch (some 1000) 3 4
      = some (.error (.Timeout
          ("Prediction " ++ "j3" ++ " did not complete within " ++ durationRepr 1000)))
    ∧ ∀ m, wait_for_completion "j3" neverDoneFetch none 3 4
        ≠ some (.error (.Timeout m)) :=
  wait_deadline_timeout "j3" neverDoneFetch 1000 3 4
    (fun _ _ => ⟨mkPrediction "j3" .Processing none none, rfl, rfl⟩)
    (fun _ _ h => Except.noConfusion h)

/-- Claim C4: the status-to-error mapping yields `Auth` exactly for 401, 402
and 403; an `Api` error with status 404 for 404; an `Api` error with status
422 whose detail carries the raw response body for 422; and an `Api` error
(never `Auth`) carrying the original status for every other non-2xx status,
including 429 and 500-599. -/
theorem to_replicate_error_classification (status : Nat) (body : String)
    (hno2xx : status < 200 ∨ 300 ≤ status) :
    ((status = 401 ∨ status = 402 ∨ status = 403) →
      (to_replicate_error status body).isAuth = true)
    ∧ (status = 404 →
      to_replicate_error status body = .Api 404 "Resource not found" none)
    ∧ (status = 422 →
      to_replicate_error status body = .Api 422 "Validation error" (some body))
    ∧ (status ≠ 401 → status ≠ 402 → status ≠ 403 →
      (to_replicate_error status body).apiStatus = some status
      ∧ (to_replicate_error status body).isAuth = false) := by
  refine ⟨?_, ?_, ?_, ?_⟩
  · rintro (rfl | rfl | rfl) <;> rfl
  · rintro rfl; rfl
  · rintro rfl; rfl
  · intro h1 h2 h3
    unfold to_replicate_error
    split_ifs with e1 e2 e3 e4 e5 e6 e7 <;>
      first
        | exact absurd e1 h1
        | exact absurd e2 h2
        | exact absurd e3 h3
        | (subst_vars; exact ⟨rfl, rfl⟩)

/-- Witness for C4: 401 maps to `Auth`; 503 maps to an `Api` error with
status 503 and not to `Auth`; 422 maps to an `Api` error whose detail is the
raw body. -/
theorem to_replicate_error_classification_witness :
    (to_replicate_error 401 "x").isAuth = true
    ∧ (to_replicate_error 503 "y").apiStatus = some 503
    ∧ (to_replicate_error 503 "y").isAuth = false
    ∧ to_replicate_error 422 "raw body" = .Api 422 "Validation error" (some "raw body") := by
  have h401 := to_replicate_error_classification 401 "x" (by omega)
  have h503 := to_replicate_error_classification 503 "y" (by omega)
  have h422 := to_replicate_error_classification 422 "raw body" (by omega)
  exact ⟨h401.1 (Or.inl rfl),
    (h503.2.2.2 (by omega) (by omega) (by omega)).1,
    (h503.2.2.2 (by omega) (by omega) (by omega)).2,
    h422.2.2.1 rfl⟩

/-- Claim C5, counterexample: under the spec's backoff formula, the
configuration with `max_retries = 2`, `min_delay = 1`, `max_delay = 2` and
`multiplier = 0` satisfies the data-model invariant `min_delay ≤ max_delay`,
attempt 1 lies in `[0, max_retries)`, yet with random sample 1 the produced
delay is 1, which exceeds the claimed ceiling
`min(max_delay, min_delay * multiplier^attempt) = min 2 (1 * 0^1) = 0`. -/
theorem backoff_bound_counterexample :
    (1 : Nat) ≤ 2 ∧ (1 : Nat) < 2
    ∧ ¬ nextDelay ⟨2, 1, 2, 0⟩ 1 1 ≤ min (2 : Nat) (1 * 0 ^ 1) := by
  decide

/-- Claim C5 (amended): for every backoff configuration with
`min_delay ≤ max_delay` and multiplier at least 1, every attempt in
`[0, max_retries)` and every random sample, the produced retry delay lies
within `[0, min(max_delay, min_delay * multiplier^attempt)]` — jitter is
applied within `[0, computed]` and never exceeds the clamped ceiling. -/
theorem nextDelay_within_bounds (cfg : RetryConfig) (attempt r : Nat)
    (hinv : cfg.min_delay ≤ cfg.max_delay) (hmul : 1 ≤ cfg.base_multiplier)
    (hatt : attempt < cfg.max_retries) :
    nextDelay cfg attempt r
      ≤ min cfg.max_delay (cfg.min_delay * cfg.base_multiplier ^ attempt) := by
  have hpow : 1 ≤ cfg.base_multiplier ^ attempt :=
    Nat.one_le_pow _ _ (by omega)
  have hx : cfg.min_delay ≤ cfg.min_delay * cfg.base_multiplier ^ attempt := by
    calc cfg.min_delay = cfg.min_delay * 1 := by rw [Nat.mul_one]
      _ ≤ cfg.min_delay * cfg.base_multiplier ^ attempt :=
          Nat.mul_le_mul (Nat.le_refl _) hpow
  have hmod : nextDelay cfg attempt r ≤ computedDelay cfg attempt := by
    unfold nextDelay
    exact Nat.le_of_lt_succ (Nat.mod_lt _ (Nat.succ_pos _))
  have hcomp : computedDelay cfg attempt
      ≤ min cfg.max_delay (cfg.min_delay * cfg.base_multiplier ^ attempt) := by
    unfold computedDelay
    omega
  exact le_trans hmod hcomp

/-- Witness for C5 (amended): the default configuration, attempt 2,
sample 12345: the delay stays at or below `min 30000 (500 * 2^2)`. -/
theorem nextDelay_within_bounds_witness :
    nextDelay ⟨3, 500, 30000, 2⟩ 2 12345 ≤ min (30000 : Nat) (500 * 2 ^ 2) :=
  nextDelay_within_bounds ⟨3, 500, 30000, 2⟩ 2 12345 (by decide) (by decide)
    (by decide)

/-- Claim C6: encoding the bytes of "Hello, World!" with content type
"text/plain" under the inline data-URL strategy yields exactly
`data:text/plain;base64,SGVsbG8sIFdvcmxkIQ==`; in general, a bytes input is
encoded as `data:` followed by the supplied content type (or
`application/octet-stream` when absent), `;base64,` and the standard base64
encoding of the bytes. -/
theorem encode_bytes_inline_data_url (env : FileEnv) (data : List Nat)
    (filename content_type : Option String) :
    encode_file_as_data_url env
      (FileInput.Bytes ("Hello, World!".data.map Char.toNat)
        (some "hello.txt") (some "text/plain"))
      = .ok "data:text/plain;base64,SGVsbG8sIFdvcmxkIQ=="
    ∧ encode_file_as_data_url env (FileInput.Bytes data filename content_type)
      = .ok ("data:" ++ content_type.getD "application/octet-stream"
          ++ ";base64," ++ base64Encode data) := by
  exact ⟨rfl, rfl⟩

/-- Claim C7: a `Url` file input is rejected with `InvalidInput` under both
encoding strategies — the inline data-URL strategy refuses it whether or not
a files API is present (it has no way to fetch the URL), and the out-of-band
upload strategy refuses to upload from a URL; the out-of-band strategy also
fails with `InvalidInput` for every input when no files API is supplied. -/
theorem url_input_rejected_by_both_strategies (env : FileEnv) (url : String)
    (api : FilesApi) (fi : FileInput) :
    process_file_input env (.Url url) .Base64DataUrl (some api)
      = .error (.InvalidInput "Cannot encode URL as data URL without downloading")
    ∧ process_file_input env (.Url url) .Base64DataUrl none
      = .error (.InvalidInput "Cannot encode URL as data URL without downloading")
    ∧ process_file_input env (.Url url) .Multipart (some api)
      = .error (.InvalidInput "Cannot upload from URL - file must be local or bytes")
    ∧ process_file_input env fi .Multipart none
      = .error (.InvalidInput "Files API required for multipart upload") :=
  ⟨rfl, rfl, rfl, rfl⟩

/-- An attempt oracle whose every attempt fails at the transport level. -/
def alwaysNetFailure : Nat → AttemptResult := fun _ =>
  .netFailure "connection reset"

/-- Claim C8: a multipart upload request is never retried — the multipart
execution path performs exactly one HTTP attempt for every attempt oracle
and every configuration, while the retry-decorated client used by the JSON
paths performs `max_retries + 1` attempts when every attempt fails with a
retryable outcome. -/
theorem multipart_single_attempt (cfg : HttpConfig)
    (attempts : Nat → AttemptResult) :
    (execute_multipart_request cfg attempts).2 = 1
    ∧ ((∀ k, (attempts k).retryable = true) →
      (retryingSend cfg attempts).2 = cfg.retry.max_retries + 1) := by
  refine ⟨rfl, ?_⟩
  intro hall
  unfold retryingSend
  exact retryLoop_count_all_retryable attempts hall cfg.retry.max_retries 0

/-- Witness for C8: with `max_retries = 3` and every attempt failing at the
transport level, the multipart path makes exactly one attempt while the
retry-decorated path makes four. -/
theorem multipart_single_attempt_witness :
    (execute_multipart_request ⟨⟨3, 500, 30000, 2⟩, ⟨some 30, some 60⟩⟩
        alwaysNetFailure).2 = 1
    ∧ (retryingSend ⟨⟨3, 500, 30000, 2⟩, ⟨some 30, some 60⟩⟩
        alwaysNetFailure).2 = 3 + 1 := by
  have h := multipart_single_attempt ⟨⟨3, 500, 30000, 2⟩, ⟨some 30, some 60⟩⟩
    alwaysNetFailure
  exact ⟨h.1, h.2 (fun _ => rfl)⟩

/-- Claim C9: `configure_retries_advanced` leaves the timeout configuration,
base URL and API token unchanged while setting the retry configuration to
exactly the given values; symmetrically, `configure_timeouts` leaves the
retry configuration, base URL and API token unchanged while setting the
timeout configuration to exactly the given values. -/
theorem configure_preserves_frame (c : HttpClient)
    (mr mind maxd mult : Nat) (ct rt : Option Nat) :
    (c.configure_retries_advanced mr mind maxd mult).http_config.timeout
        = c.http_config.timeout
    ∧ (c.configure_retries_advanced mr mind maxd mult).base_url = c.base_url
    ∧ (c.configure_retries_advanced mr mind maxd mult).api_token = c.api_token
    ∧ (c.configure_retries_advanced mr mind maxd mult).http_config.retry
        = ⟨mr, mind, maxd, mult⟩
    ∧ (c.configure_timeouts ct rt).http_config.retry = c.http_config.retry
    ∧ (c.configure_timeouts ct rt).base_url = c.base_url
    ∧ (c.configure_timeouts ct rt).api_token = c.api_token
    ∧ (c.configure_timeouts ct rt).http_config.timeout = ⟨ct, rt⟩ :=
  ⟨rfl, rfl, rfl, rfl, rfl, rfl, rfl, rfl⟩

/-- Claim C10: converting a string into a `FileInput` yields `Url` exactly
when the string starts with "http://" or "https://", and `Path` otherwise;
in particular any other URI scheme is treated as a local path. -/
theorem fileInputFromString_url_iff (s : String) :
    (fileInputFromString s = FileInput.Url s
      ↔ (strStartsWith s "http://" = true ∨ strStartsWith s "https://" = true))
    ∧ (fileInputFromString s = FileInput.Path s
      ↔ ¬ (strStartsWith s "http://" = true ∨ strStartsWith s "https://" = true)) := by
  unfold fileInputFromString
  cases hh : strStartsWith s "http://" <;>
    cases hs : strStartsWith s "https://" <;> simp

/-- Witness for C10: an "ftp://" string becomes a local path, an "https://"
string becomes a URL. -/
theorem fileInputFromString_url_iff_witness :
    fileInputFromString "ftp://host/file" = FileInput.Path "ftp://host/file"
    ∧ fileInputFromString "https://host/f" = FileInput.Url "https://host/f" := by
  constructor
  · exact (fileInputFromString_url_iff "ftp://host/file").2.mpr (by decide)
  · exact (fileInputFromString_url_iff "https://host/f").1.mpr (by decide)

end Replicate
